import Mathlib

/-!
Verification of the PSM5000 sensor reader (frame synchronization, checksum
validation, frame decoding and session lifecycle) against its specification.

The Python sources (data.py and the reader embedded in main.py, which are
identical in protocol logic) are shallowly embedded below:

* Python bytes values become `List (Fin 256)`.
* The serial channel is modelled as the finite list of bytes it will yield
  before timing out: `read n` returns up to `n` bytes (short on timeout or
  EOF), consuming them — exactly the pyserial one-shot read model the code
  relies on.
* Python floats produced by dividing by 10.0 are modelled as rationals
  divided by 10 (the properties below only involve the defining expression
  itself, never floating-point rounding).
* Calls to time.time are threaded in as an explicit `now` parameter.
* Optional return values become `Option`; methods that touch the
  connection also return the updated reader state.
-/

namespace IoTCore

/-- Python byte: an integer in 0..255. -/
abbrev Byte := Fin 256

/-- Python bytes value: a finite sequence of bytes. -/
abbrev Bytes := List Byte

/-- Build a byte from a natural number, as Python does when constructing
bytes from small integer literals (every literal used is below 256). -/
def mkByte (n : Nat) : Byte := ⟨n % 256, Nat.mod_lt _ (by decide)⟩

/-- Protocol constant HEADER of `PSM5000Reader`: the two magic bytes
0x42 0x4D. -/
def HEADER : Bytes := [mkByte 0x42, mkByte 0x4D]

/-- Protocol constant FRAME_LENGTH = 32 of `PSM5000Reader`. -/
def FRAME_LENGTH : Nat := 32

/-- Python int.from_bytes with byteorder big. -/
def intFromBytesBE (data : Bytes) : Nat :=
  data.foldl (fun acc b => acc * 256 + b.val) 0

/-- Python sum of a bytes value. -/
def byteSum (data : Bytes) : Nat :=
  (data.map Fin.val).sum

/-- Model of the serial channel object: the is_open flag and the byte
stream the channel will yield before timing out. -/
structure SerialConn where
  is_open : Bool
  buffer : List Byte
  deriving DecidableEq

/-- pyserial read of `n` bytes: return up to `n` bytes (fewer when the
source times out or hits EOF), consuming them from the stream. -/
def SerialConn.read (c : SerialConn) (n : Nat) : Bytes × SerialConn :=
  (c.buffer.take n, { c with buffer := c.buffer.drop n })

/-- State of a `PSM5000Reader` object: its (possibly absent) serial
connection.  Port, baud rate and timeout do not affect the embedded
logic. -/
structure PSM5000Reader where
  serial_conn : Option SerialConn
  deriving DecidableEq

/-- Session is Disconnected: no byte channel open (serial_conn is None, or
its is_open flag is false). -/
def PSM5000Reader.Disconnected (r : PSM5000Reader) : Prop :=
  match r.serial_conn with
  | none => True
  | some c => c.is_open = false

/-- Method disconnect of `PSM5000Reader`: close the serial connection if
one is open, otherwise do nothing (`if self.serial_conn and
self.serial_conn.is_open: self.serial_conn.close()`). -/
def PSM5000Reader.disconnect (r : PSM5000Reader) : PSM5000Reader :=
  match r.serial_conn with
  | none => r
  | some c =>
    if c.is_open then { r with serial_conn := some { c with is_open := false } }
    else r

/-- Method _validate_checksum of `PSM5000Reader`: reject any length other
than FRAME_LENGTH, then compare the byte sum of all but the last two bytes
with the big-endian integer formed by the last two bytes. -/
def validate_checksum (data : Bytes) : Bool :=
  if data.length ≠ FRAME_LENGTH then false
  else
    let calculated_sum := byteSum (data.take (data.length - 2))
    let received_checksum := intFromBytesBE (data.drop (data.length - 2))
    calculated_sum == received_checksum

/-- Method read_raw_data of `PSM5000Reader`, translated branch for branch:
guard on an established connection, read 2 header bytes, read the 30
remaining bytes, validate the checksum; every failure returns None.  The
updated reader state (channel bytes consumed) is returned alongside. -/
def read_raw_data (r : PSM5000Reader) : Option Bytes × PSM5000Reader :=
  match r.serial_conn with
  | none => (none, r)
  | some conn =>
    if conn.is_open = false then (none, r)
    else
      let res1 := conn.read 2
      let header := res1.1
      if header.length ≠ 2 ∨ header ≠ HEADER then
        (none, { r with serial_conn := some res1.2 })
      else
        let res2 := res1.2.read (FRAME_LENGTH - 2)
        let remaining_bytes := res2.1
        if remaining_bytes.length ≠ FRAME_LENGTH - 2 then
          (none, { r with serial_conn := some res2.2 })
        else
          let full_frame := header ++ remaining_bytes
          if validate_checksum full_frame = false then
            (none, { r with serial_conn := some res2.2 })
          else
            (some full_frame, { r with serial_conn := some res2.2 })

/-- Outcome of one read_raw_data call with the failure site made explicit.
The constructors correspond one-to-one to the return sites of the code and
their log messages: `lifecycleError` to the message that the serial
connection is not established, `syncFailure` to the invalid-header and
incomplete-frame messages, `checksumFailure` to the failed checksum
validation message. -/
inductive ReadOutcome where
  | lifecycleError : ReadOutcome
  | syncFailure : ReadOutcome
  | checksumFailure : ReadOutcome
  | ok : Bytes → ReadOutcome
  deriving DecidableEq

/-- Forget the failure tag, recovering the optional bytes value the Python
method actually returns. -/
def ReadOutcome.toOption : ReadOutcome → Option Bytes
  | .ok frame => some frame
  | _ => none

/-- Function read_raw_data with each failing return site labelled by the
error kind the specification names for it; identical to `read_raw_data`
branch for branch (erasure proved in `read_raw_data_tagged_erase`). -/
def read_raw_data_tagged (r : PSM5000Reader) : ReadOutcome × PSM5000Reader :=
  match r.serial_conn with
  | none => (.lifecycleError, r)
  | some conn =>
    if conn.is_open = false then (.lifecycleError, r)
    else
      let res1 := conn.read 2
      let header := res1.1
      if header.length ≠ 2 ∨ header ≠ HEADER then
        (.syncFailure, { r with serial_conn := some res1.2 })
      else
        let res2 := res1.2.read (FRAME_LENGTH - 2)
        let remaining_bytes := res2.1
        if remaining_bytes.length ≠ FRAME_LENGTH - 2 then
          (.syncFailure, { r with serial_conn := some res2.2 })
        else
          let full_frame := header ++ remaining_bytes
          if validate_checksum full_frame = false then
            (.checksumFailure, { r with serial_conn := some res2.2 })
          else
            (.ok full_frame, { r with serial_conn := some res2.2 })

/-- Dataclass PMData: the decoded measurement (three concentrations in
μg/m³ plus a capture timestamp). -/
structure PMData where
  pm1_0 : ℚ
  pm2_5 : ℚ
  pm10 : ℚ
  timestamp : ℚ
  deriving DecidableEq

/-- Method parse_data of `PSM5000Reader`: reject a falsy or wrongly sized
input, then decode the three big-endian uint16 fields at offsets 4, 6, 8
and divide each by 10.0.  The slice reads cannot raise for a 32-byte
input, so the except branch is unreachable here.  The call to time.time is
the explicit `now` argument. -/
def parse_data (raw_data : Bytes) (now : ℚ) : Option PMData :=
  if raw_data.isEmpty ∨ raw_data.length ≠ FRAME_LENGTH then none
  else
    let pm1_0 : ℚ := (intFromBytesBE ((raw_data.drop 4).take 2) : ℚ) / 10
    let pm2_5 : ℚ := (intFromBytesBE ((raw_data.drop 6).take 2) : ℚ) / 10
    let pm10 : ℚ := (intFromBytesBE ((raw_data.drop 8).take 2) : ℚ) / 10
    some { pm1_0 := pm1_0, pm2_5 := pm2_5, pm10 := pm10, timestamp := now }

/-- Method read_pm_data of `PSM5000Reader` (read_measurement of the
specification), the composed read operation: read_raw_data then, when a
truthy frame came back, parse_data. -/
def read_pm_data (r : PSM5000Reader) (now : ℚ) : Option PMData × PSM5000Reader :=
  let res := read_raw_data r
  match res.1 with
  | some raw_data =>
    if raw_data.isEmpty then (none, res.2) else (parse_data raw_data now, res.2)
  | none => (none, res.2)

/-- Big-endian encoding of a uint16 value into two bytes, used to build
test frames for the round-trip property. -/
def toBytes2BE (v : Nat) : Bytes :=
  [mkByte (v / 256), mkByte v]

/-- First 30 bytes of a test frame: magic header, declared payload length
0x001C, the three raw values at offsets 4, 6, 8, and 20 undecoded zero
bytes. -/
def frameBody (v1 v2 v3 : Nat) : Bytes :=
  mkByte 0x42 :: mkByte 0x4D :: mkByte 0x00 :: mkByte 0x1C ::
    (toBytes2BE v1 ++ toBytes2BE v2 ++ toBytes2BE v3 ++ List.replicate 20 (mkByte 0))

/-- Complete 32-byte test frame: body followed by its correct big-endian
16-bit checksum. -/
def mkFrame (v1 v2 v3 : Nat) : Bytes :=
  frameBody v1 v2 v3 ++ toBytes2BE (byteSum (frameBody v1 v2 v3))

/-! Helper lemmas. -/

theorem byteSum_le (l : Bytes) : byteSum l ≤ 255 * l.length := by
  induction l with
  | nil => simp [byteSum]
  | cons b t ih =>
    have hb : b.val ≤ 255 := Nat.lt_succ_iff.mp b.isLt
    simp only [byteSum, List.map_cons, List.sum_cons, List.length_cons] at *
    calc b.val + (t.map Fin.val).sum ≤ 255 + 255 * t.length := Nat.add_le_add hb ih
      _ = 255 * (t.length + 1) := by ring

theorem intFromBytesBE_toBytes2BE (v : Nat) (h : v < 65536) :
    intFromBytesBE (toBytes2BE v) = v := by
  simp [intFromBytesBE, toBytes2BE, mkByte, List.foldl]
  omega

theorem frameBody_length (v1 v2 v3 : Nat) : (frameBody v1 v2 v3).length = 30 := by
  simp [frameBody, toBytes2BE]

theorem mkFrame_length (v1 v2 v3 : Nat) : (mkFrame v1 v2 v3).length = 32 := by
  simp [mkFrame, frameBody, toBytes2BE]

/-- Characterization of the checksum validator in terms of the trailing
two bytes of the sequence. -/
theorem validate_checksum_characterization (b : Bytes) :
    validate_checksum b = true ↔
      b.length = 32 ∧ byteSum (b.take 30) % 65536 = intFromBytesBE (b.drop 30) := by
  unfold validate_checksum
  by_cases hlen : b.length = 32
  · have hmod : byteSum (b.take 30) % 65536 = byteSum (b.take 30) := by
      apply Nat.mod_eq_of_lt
      calc byteSum (b.take 30) ≤ 255 * (b.take 30).length := byteSum_le _
        _ ≤ 255 * 30 := by
            apply Nat.mul_le_mul_left
            exact List.length_take_le 30 b
        _ < 65536 := by norm_num
    simp [hlen, FRAME_LENGTH, hmod]
  · simp [hlen, FRAME_LENGTH]

theorem mkFrame_take_30 (v1 v2 v3 : Nat) : (mkFrame v1 v2 v3).take 30 = frameBody v1 v2 v3 := by
  have h := frameBody_length v1 v2 v3
  rw [mkFrame, ← h, List.take_left]

theorem mkFrame_drop_30 (v1 v2 v3 : Nat) :
    (mkFrame v1 v2 v3).drop 30 = toBytes2BE (byteSum (frameBody v1 v2 v3)) := by
  have h := frameBody_length v1 v2 v3
  rw [mkFrame, ← h, List.drop_left]

theorem byteSum_frameBody_lt (v1 v2 v3 : Nat) : byteSum (frameBody v1 v2 v3) < 65536 := by
  calc byteSum (frameBody v1 v2 v3) ≤ 255 * (frameBody v1 v2 v3).length := byteSum_le _
    _ = 255 * 30 := by rw [frameBody_length]
    _ < 65536 := by norm_num

theorem mkFrame_checksum_valid (v1 v2 v3 : Nat) :
    validate_checksum (mkFrame v1 v2 v3) = true := by
  rw [validate_checksum_characterization]
  refine ⟨mkFrame_length v1 v2 v3, ?_⟩
  rw [mkFrame_take_30, mkFrame_drop_30,
    intFromBytesBE_toBytes2BE _ (byteSum_frameBody_lt v1 v2 v3),
    Nat.mod_eq_of_lt (byteSum_frameBody_lt v1 v2 v3)]

theorem parse_mkFrame (v1 v2 v3 : Nat) (now : ℚ)
    (h1 : v1 < 65536) (h2 : v2 < 65536) (h3 : v3 < 65536) :
    parse_data (mkFrame v1 v2 v3) now =
      some ⟨(v1 : ℚ) / 10, (v2 : ℚ) / 10, (v3 : ℚ) / 10, now⟩ := by
  have e1 : ((mkFrame v1 v2 v3).drop 4).take 2 = toBytes2BE v1 := by
    simp [mkFrame, frameBody, toBytes2BE]
  have e2 : ((mkFrame v1 v2 v3).drop 6).take 2 = toBytes2BE v2 := by
    simp [mkFrame, frameBody, toBytes2BE]
  have e3 : ((mkFrame v1 v2 v3).drop 8).take 2 = toBytes2BE v3 := by
    simp [mkFrame, frameBody, toBytes2BE]
  have hne : mkFrame v1 v2 v3 ≠ [] := by
    intro h
    have hl := mkFrame_length v1 v2 v3
    rw [h] at hl
    simp at hl
  rw [parse_data]
  rw [if_neg]
  · rw [e1, e2, e3, intFromBytesBE_toBytes2BE _ h1, intFromBytesBE_toBytes2BE _ h2,
      intFromBytesBE_toBytes2BE _ h3]
  · simp [hne, mkFrame_length, FRAME_LENGTH]

/-- Erasing the failure tags of `read_raw_data_tagged` recovers exactly
`read_raw_data`: the tagged function is the same function with the failure
sites named. -/
theorem read_raw_data_tagged_erase (r : PSM5000Reader) :
    ((read_raw_data_tagged r).1.toOption, (read_raw_data_tagged r).2) = read_raw_data r := by
  unfold read_raw_data read_raw_data_tagged
  cases r.serial_conn with
  | none => rfl
  | some c =>
    by_cases h1 : c.is_open = false
    · simp [h1, ReadOutcome.toOption]
    · simp only [h1, if_false]
      split_ifs <;> simp [ReadOutcome.toOption]

theorem read_raw_fst (r : PSM5000Reader) :
    (read_raw_data r).1 = (read_raw_data_tagged r).1.toOption := by
  rw [← read_raw_data_tagged_erase]

theorem read_pm_none (r : PSM5000Reader) (now : ℚ) (h : (read_raw_data r).1 = none) :
    (read_pm_data r now).1 = none := by
  simp [read_pm_data, h]

theorem parse_nonneg (raw : Bytes) (now : ℚ) (m : PMData) (h : parse_data raw now = some m) :
    0 ≤ m.pm1_0 ∧ 0 ≤ m.pm2_5 ∧ 0 ≤ m.pm10 := by
  unfold parse_data at h
  split at h
  · exact absurd h (by simp)
  · rw [Option.some.injEq] at h
    subst h
    refine ⟨?_, ?_, ?_⟩ <;> positivity

theorem foldl_intFromBytesBE_lt (l : Bytes) :
    ∀ acc : Nat, l.foldl (fun a b => a * 256 + b.val) acc < (acc + 1) * 256 ^ l.length := by
  induction l with
  | nil => intro acc; simp
  | cons b t ih =>
    intro acc
    have h1 := ih (acc * 256 + b.val)
    have hb : b.val < 256 := b.isLt
    calc (b :: t).foldl (fun a b => a * 256 + b.val) acc
        = t.foldl (fun a b => a * 256 + b.val) (acc * 256 + b.val) := rfl
      _ < (acc * 256 + b.val + 1) * 256 ^ t.length := h1
      _ ≤ (acc + 1) * 256 ^ (b :: t).length := by
          simp only [List.length_cons, pow_succ]
          have hstep : acc * 256 + b.val + 1 ≤ (acc + 1) * 256 := by omega
          calc (acc * 256 + b.val + 1) * 256 ^ t.length
              ≤ (acc + 1) * 256 * 256 ^ t.length := Nat.mul_le_mul_right _ hstep
            _ = (acc + 1) * (256 ^ t.length * 256) := by ring

theorem intFromBytesBE_lt (l : Bytes) : intFromBytesBE l < 256 ^ l.length := by
  have h := foldl_intFromBytesBE_lt l 0
  simpa [intFromBytesBE] using h

theorem intFromBytesBE_take2_le (l : Bytes) : intFromBytesBE (l.take 2) ≤ 65535 := by
  have h1 := intFromBytesBE_lt (l.take 2)
  have h2 : (l.take 2).length ≤ 2 := List.length_take_le 2 l
  have h3 : (256 : Nat) ^ (l.take 2).length ≤ 256 ^ 2 :=
    Nat.pow_le_pow_right (by norm_num) h2
  omega

theorem drop_30_of_length_32 (b : Bytes) (h : b.length = 32) :
    b.drop 30 = [b.getD 30 (mkByte 0), b.getD 31 (mkByte 0)] := by
  apply List.ext_getElem
  · simp [h]
  · intro i hi1 hi2
    simp [h] at hi1
    interval_cases i <;>
      simp [List.getElem_drop, List.getD_eq_getElem?_getD, List.getElem?_eq_getElem, h]

/-! Claim theorems. -/

/-- C1: in the Disconnected state (no byte channel open) the composed read
operation fails at the lifecycle guard — the branch logging that the
serial connection is not established — returning no measurement and
leaving the reader state, hence the channel, completely untouched; no
implicit connect is attempted. -/
theorem read_in_disconnected (r : PSM5000Reader) (now : ℚ) (h : r.Disconnected) :
    read_raw_data_tagged r = (ReadOutcome.lifecycleError, r) ∧
      read_pm_data r now = (none, r) := by
  unfold PSM5000Reader.Disconnected at h
  cases hc : r.serial_conn with
  | none =>
    refine ⟨?_, ?_⟩
    · simp [read_raw_data_tagged, hc]
    · simp [read_pm_data, read_raw_data, hc]
  | some c =>
    rw [hc] at h
    refine ⟨?_, ?_⟩
    · simp [read_raw_data_tagged, hc, h]
    · simp [read_pm_data, read_raw_data, hc, h]

/-- Witness for C1: the freshly constructed reader (serial_conn = None). -/
theorem read_in_disconnected_witness :
    read_raw_data_tagged ⟨none⟩ = (ReadOutcome.lifecycleError, ⟨none⟩) ∧
      read_pm_data ⟨none⟩ 0 = (none, ⟨none⟩) :=
  read_in_disconnected ⟨none⟩ 0 trivial

/-- C2: the checksum validator returns true if and only if the data has
length exactly 32 and the arithmetic sum of bytes 0..29 taken modulo 65536
equals the big-endian 16-bit unsigned integer formed by byte 30 and
byte 31; any other length is immediately invalid. -/
theorem validate_checksum_iff (b : Bytes) :
    validate_checksum b = true ↔
      b.length = 32 ∧
        byteSum (b.take 30) % 65536 =
          256 * (b.getD 30 (mkByte 0)).val + (b.getD 31 (mkByte 0)).val := by
  rw [validate_checksum_characterization]
  apply and_congr_right
  intro hlen
  rw [drop_30_of_length_32 b hlen]
  have hval : intFromBytesBE [b.getD 30 (mkByte 0), b.getD 31 (mkByte 0)] =
      256 * (b.getD 30 (mkByte 0)).val + (b.getD 31 (mkByte 0)).val := by
    simp [intFromBytesBE]
    ring
  rw [hval]

/-- C3: round-trip — a 32-byte frame carrying raw uint16 values v1, v2, v3
big-endian at byte offsets 4, 6, 8 with a correct checksum passes the
checksum validator and decodes via parse_data to the measurement with
pm1_0 = v1 / 10, pm2_5 = v2 / 10, pm10 = v3 / 10. -/
theorem roundtrip_decode (v1 v2 v3 : Nat) (now : ℚ)
    (h1 : v1 < 65536) (h2 : v2 < 65536) (h3 : v3 < 65536) :
    validate_checksum (mkFrame v1 v2 v3) = true ∧
      parse_data (mkFrame v1 v2 v3) now =
        some ⟨(v1 : ℚ) / 10, (v2 : ℚ) / 10, (v3 : ℚ) / 10, now⟩ :=
  ⟨mkFrame_checksum_valid v1 v2 v3, parse_mkFrame v1 v2 v3 now h1 h2 h3⟩

/-- Witness for C3 at the spec scenario values 10, 25, 40. -/
theorem roundtrip_decode_witness :
    validate_checksum (mkFrame 10 25 40) = true ∧
      parse_data (mkFrame 10 25 40) 0 =
        some ⟨(10 : ℚ) / 10, (25 : ℚ) / 10, (40 : ℚ) / 10, 0⟩ :=
  roundtrip_decode 10 25 40 0 (by norm_num) (by norm_num) (by norm_num)

/-- C4: one header check per call.  If the channel yields fewer than 2
bytes or the 2 bytes differ from the magic header, the attempt fails as a
sync failure with no measurement, and exactly the single 2-byte read was
consumed (no byte-by-byte rescanning).  On a header match exactly the
remaining 30 bytes are additionally consumed. -/
theorem one_header_check_per_call (buf : List Byte) :
    (((buf.take 2).length ≠ 2 ∨ buf.take 2 ≠ HEADER) →
        read_raw_data_tagged ⟨some ⟨true, buf⟩⟩ =
          (ReadOutcome.syncFailure, ⟨some ⟨true, buf.drop 2⟩⟩) ∧
        ∀ now : ℚ, (read_pm_data ⟨some ⟨true, buf⟩⟩ now).1 = none) ∧
      (buf.take 2 = HEADER →
        (read_raw_data_tagged ⟨some ⟨true, buf⟩⟩).2 = ⟨some ⟨true, buf.drop 32⟩⟩) := by
  constructor
  · intro h
    have htag : read_raw_data_tagged ⟨some ⟨true, buf⟩⟩ =
        (ReadOutcome.syncFailure, ⟨some ⟨true, buf.drop 2⟩⟩) := by
      simp only [read_raw_data_tagged, SerialConn.read]
      rw [if_neg (by simp), if_pos h]
    refine ⟨htag, fun now => read_pm_none _ now ?_⟩
    rw [read_raw_fst, htag]
    rfl
  · intro h
    have hlen : (buf.take 2).length = 2 := by rw [h]; rfl
    simp only [read_raw_data_tagged, SerialConn.read]
    rw [if_neg (by simp), if_neg (by simp [h, hlen, HEADER])]
    have hdd : (buf.drop 2).drop 30 = buf.drop 32 := by
      rw [List.drop_drop]
    split_ifs <;> simp [hdd, FRAME_LENGTH]

/-- Witness for C4: a channel yielding a single byte fails sync having
consumed only that read, and on a full valid frame exactly 32 bytes are
consumed. -/
theorem one_header_check_witness :
    (read_raw_data_tagged ⟨some ⟨true, [mkByte 0]⟩⟩ =
        (ReadOutcome.syncFailure, ⟨some ⟨true, ([] : List Byte)⟩⟩) ∧
      (read_pm_data ⟨some ⟨true, [mkByte 0]⟩⟩ 0).1 = none) ∧
    (read_raw_data_tagged ⟨some ⟨true, mkFrame 10 25 40⟩⟩).2 =
        ⟨some ⟨true, ([] : List Byte)⟩⟩ :=
  ⟨⟨((one_header_check_per_call [mkByte 0]).1 (by decide)).1,
    ((one_header_check_per_call [mkByte 0]).1 (by decide)).2 0⟩,
   by
    have h := (one_header_check_per_call (mkFrame 10 25 40)).2 (by decide)
    rw [h]
    decide⟩

/-- C5: a correct 2-byte header followed by fewer than the 30 remaining
frame bytes yields a sync failure — no frame and no partial measurement —
and the partial bytes are consumed and discarded, not buffered for the
next call. -/
theorem short_body_sync_failure (rest : List Byte) (now : ℚ) (h : rest.length < 30) :
    read_raw_data_tagged ⟨some ⟨true, HEADER ++ rest⟩⟩ =
        (ReadOutcome.syncFailure, ⟨some ⟨true, []⟩⟩) ∧
      (read_pm_data ⟨some ⟨true, HEADER ++ rest⟩⟩ now).1 = none := by
  have htake : (HEADER ++ rest).take 2 = HEADER := by
    rw [show (2 : Nat) = HEADER.length from rfl, List.take_left]
  have hdrop : (HEADER ++ rest).drop 2 = rest := by
    rw [show (2 : Nat) = HEADER.length from rfl, List.drop_left]
  have hrt : rest.take 30 = rest := List.take_of_length_le (Nat.le_of_lt h)
  have hrd : rest.drop 30 = [] := List.drop_eq_nil_of_le (Nat.le_of_lt h)
  have htag : read_raw_data_tagged ⟨some ⟨true, HEADER ++ rest⟩⟩ =
      (ReadOutcome.syncFailure, ⟨some ⟨true, []⟩⟩) := by
    simp only [read_raw_data_tagged, SerialConn.read]
    rw [if_neg (by simp)]
    rw [if_neg (by simp [htake, HEADER])]
    rw [htake, hdrop, show FRAME_LENGTH - 2 = 30 from rfl]
    rw [hrt, hrd]
    rw [if_pos (by omega)]
  exact ⟨htag, read_pm_none _ now (by rw [read_raw_fst, htag]; rfl)⟩

/-- Witness for C5: the channel returns 29 of the expected 30 remaining
bytes. -/
theorem short_body_sync_failure_witness :
    read_raw_data_tagged ⟨some ⟨true, HEADER ++ List.replicate 29 (mkByte 0)⟩⟩ =
        (ReadOutcome.syncFailure, ⟨some ⟨true, []⟩⟩) ∧
      (read_pm_data ⟨some ⟨true, HEADER ++ List.replicate 29 (mkByte 0)⟩⟩ 0).1 = none :=
  short_body_sync_failure (List.replicate 29 (mkByte 0)) 0 (by simp)

/-- C6: a complete 32-byte frame whose checksum check fails makes the read
return a checksum failure and no measurement; being a total function of
the embedded state, the read signals this as a value, never an
exception. -/
theorem checksum_failure_read (body extra : List Byte) (now : ℚ)
    (hlen : body.length = 30) (hbad : validate_checksum (HEADER ++ body) = false) :
    read_raw_data_tagged ⟨some ⟨true, HEADER ++ (body ++ extra)⟩⟩ =
        (ReadOutcome.checksumFailure, ⟨some ⟨true, extra⟩⟩) ∧
      (read_pm_data ⟨some ⟨true, HEADER ++ (body ++ extra)⟩⟩ now).1 = none := by
  have htake : (HEADER ++ (body ++ extra)).take 2 = HEADER := by
    rw [show (2 : Nat) = HEADER.length from rfl, List.take_left]
  have hdrop : (HEADER ++ (body ++ extra)).drop 2 = body ++ extra := by
    rw [show (2 : Nat) = HEADER.length from rfl, List.drop_left]
  have hbt : (body ++ extra).take 30 = body := by
    rw [← hlen, List.take_left]
  have hbd : (body ++ extra).drop 30 = extra := by
    rw [← hlen, List.drop_left]
  have htag : read_raw_data_tagged ⟨some ⟨true, HEADER ++ (body ++ extra)⟩⟩ =
      (ReadOutcome.checksumFailure, ⟨some ⟨true, extra⟩⟩) := by
    simp only [read_raw_data_tagged, SerialConn.read]
    rw [if_neg (by simp)]
    rw [if_neg (by simp [htake, HEADER])]
    rw [htake, hdrop, show FRAME_LENGTH - 2 = 30 from rfl, hbt, hbd]
    rw [if_neg (by simp [hlen])]
    rw [if_pos hbad]
  exact ⟨htag, read_pm_none _ now (by rw [read_raw_fst, htag]; rfl)⟩

/-- Witness for C6: a full-length frame of 30 body bytes equal to 1 whose
trailing two bytes do not match the byte sum. -/
theorem checksum_failure_read_witness :
    read_raw_data_tagged ⟨some ⟨true, HEADER ++ (List.replicate 30 (mkByte 1) ++ [])⟩⟩ =
        (ReadOutcome.checksumFailure, ⟨some ⟨true, []⟩⟩) ∧
      (read_pm_data ⟨some ⟨true, HEADER ++ (List.replicate 30 (mkByte 1) ++ [])⟩⟩ 0).1 = none :=
  checksum_failure_read (List.replicate 30 (mkByte 1)) [] 0 (by simp) (by decide)

/-- C7: disconnect is idempotent — for every session state, calling it
twice in a row leaves the session in a state identical to calling it once
(it closes the channel if open and is a no-op otherwise, so the second
call always hits the no-op branch). -/
theorem disconnect_idempotent (r : PSM5000Reader) :
    r.disconnect.disconnect = r.disconnect := by
  unfold PSM5000Reader.disconnect
  cases hc : r.serial_conn with
  | none => simp [hc]
  | some c =>
    by_cases h : c.is_open
    · simp [hc, h]
    · simp [hc, h]

/-- C8: every measurement produced by a successful composed read has all
three concentration fields non-negative, each being an unsigned integer
divided by 10. -/
theorem measurement_nonneg (r : PSM5000Reader) (now : ℚ) (m : PMData)
    (h : (read_pm_data r now).1 = some m) :
    0 ≤ m.pm1_0 ∧ 0 ≤ m.pm2_5 ∧ 0 ≤ m.pm10 := by
  rcases hr : (read_raw_data r).1 with _ | raw
  · simp [read_pm_data, hr] at h
  · simp only [read_pm_data, hr] at h
    by_cases he : raw.isEmpty
    · simp [he] at h
    · simp only [he, Bool.false_eq_true, if_false] at h
      exact parse_nonneg raw now m h

/-- Witness for C8: a successful read of the frame carrying 10, 25, 40
produces a measurement, and its fields are non-negative. -/
theorem measurement_nonneg_witness :
    (read_pm_data ⟨some ⟨true, mkFrame 10 25 40⟩⟩ 0).1 =
        some ⟨(10 : ℚ) / 10, (25 : ℚ) / 10, (40 : ℚ) / 10, 0⟩ ∧
      (0 ≤ (10 : ℚ) / 10 ∧ 0 ≤ (25 : ℚ) / 10 ∧ 0 ≤ (40 : ℚ) / 10) := by
  have hraw : (read_raw_data ⟨some ⟨true, mkFrame 10 25 40⟩⟩).1 = some (mkFrame 10 25 40) := by
    decide
  have heq : (read_pm_data ⟨some ⟨true, mkFrame 10 25 40⟩⟩ 0).1 =
      some ⟨(10 : ℚ) / 10, (25 : ℚ) / 10, (40 : ℚ) / 10, 0⟩ := by
    simp only [read_pm_data, hraw]
    rw [if_neg (by decide)]
    exact parse_mkFrame 10 25 40 0 (by norm_num) (by norm_num) (by norm_num)
  exact ⟨heq, measurement_nonneg _ 0 _ heq⟩

/-- C9: parse_data re-validates neither the magic header nor the checksum:
on every input of exactly 32 bytes it succeeds, decoding only offsets 4
through 9 (plus the supplied timestamp). -/
theorem parse_data_some (raw : Bytes) (now : ℚ) (h : raw.length = 32) :
    parse_data raw now =
      some ⟨(intFromBytesBE ((raw.drop 4).take 2) : ℚ) / 10,
        (intFromBytesBE ((raw.drop 6).take 2) : ℚ) / 10,
        (intFromBytesBE ((raw.drop 8).take 2) : ℚ) / 10, now⟩ := by
  have hne : raw ≠ [] := by
    intro he
    rw [he] at h
    simp at h
  rw [parse_data, if_neg (by simp [hne, h, FRAME_LENGTH])]

/-- Witness for C9: 32 zero bytes — wrong header, wrong checksum — still
parse to a measurement. -/
theorem parse_data_some_witness :
    parse_data (List.replicate 32 (mkByte 0)) 0 = some ⟨0, 0, 0, 0⟩ := by
  have h := parse_data_some (List.replicate 32 (mkByte 0)) 0 (by simp)
  simpa [intFromBytesBE, mkByte] using h

/-- C10: every concentration field of a measurement produced by parse_data
is at most 6553.5 μg/m³, each raw field being a 16-bit unsigned integer
(at most 65535) divided by 10. -/
theorem parse_fields_bounded (raw : Bytes) (now : ℚ) (m : PMData)
    (h : parse_data raw now = some m) :
    m.pm1_0 ≤ 6553.5 ∧ m.pm2_5 ≤ 6553.5 ∧ m.pm10 ≤ 6553.5 := by
  unfold parse_data at h
  split at h
  · exact absurd h (by simp)
  · rw [Option.some.injEq] at h
    subst h
    refine ⟨?_, ?_, ?_⟩ <;>
    · simp only
      rw [div_le_iff₀ (by norm_num)]
      calc (intFromBytesBE _ : ℚ) ≤ (65535 : ℚ) := by
            exact_mod_cast intFromBytesBE_take2_le _
        _ ≤ 6553.5 * 10 := by norm_num

/-- Witness for C10: the all-255 input attains raw value 65535 in every
field, giving exactly the bound 6553.5 = 13107 / 2. -/
theorem parse_fields_bounded_witness :
    parse_data (List.replicate 32 (mkByte 255)) 0 =
        some ⟨13107 / 2, 13107 / 2, 13107 / 2, 0⟩ ∧
      ((13107 / 2 : ℚ) ≤ 6553.5 ∧ (13107 / 2 : ℚ) ≤ 6553.5 ∧ (13107 / 2 : ℚ) ≤ 6553.5) := by
  have heq : parse_data (List.replicate 32 (mkByte 255)) 0 =
      some ⟨13107 / 2, 13107 / 2, 13107 / 2, 0⟩ := by
    have hne : List.replicate 32 (mkByte 255) ≠ ([] : Bytes) := by simp
    rw [parse_data, if_neg (by simp [hne, FRAME_LENGTH])]
    simp [intFromBytesBE, mkByte, show ((255 : Fin 256)).val = 255 from rfl]
    norm_num
  exact ⟨heq, parse_fields_bounded _ 0 _ heq⟩

end IoTCore
